import Mathlib

/-!
# Verification of the real-estate site's request handlers

Shallow embedding of `src/app.py` (Flask + SQLite). The database is an
explicit state value (two tables as lists of rows, with autoincrement
counters); each HTTP handler becomes a pure function from the database
state and the submitted form data to the new database state and a
response value. Third-party library calls (`slugify`, `markdown`) are
taken as function parameters in a `Config` record, since their code is
not part of the repository; `bleach.clean` is modelled concretely over
an HTML token representation because the sanitizer's allow-list
behaviour is what the spec's claims are about.
-/

namespace RealEstateSite

/-- Python `str.strip()`: remove leading and trailing whitespace
(written over the character list so it evaluates by kernel reduction). -/
def pyStrip (s : String) : String :=
  ⟨((s.data.dropWhile Char.isWhitespace).reverse.dropWhile
      Char.isWhitespace).reverse⟩

/-- HTML modelled as a token stream: text runs, opening tags with their
attribute list (name/value pairs), and closing tags. A disallowed tag
that `bleach.clean` escapes becomes a `text` token holding the escaped
form, which is exactly how bleach renders it. -/
inductive Token where
  | text (s : String)
  | tagOpen (name : String) (attrs : List (String × String))
  | tagClose (name : String)
deriving DecidableEq, Repr

/-- HTML content (`content_html` column) as a token stream. -/
abbrev Html := List Token

/-- `bleach.sanitizer.ALLOWED_TAGS` (bleach's default allow-list). -/
def BLEACH_ALLOWED_TAGS : List String :=
  ["a", "abbr", "acronym", "b", "blockquote", "code", "em", "i", "li",
   "ol", "strong", "ul"]

/-- app.py line 24: `allowed_tags = bleach.sanitizer.ALLOWED_TAGS |
\x7b"p","img","h1","h2","h3","h4","pre","code","table","thead","tbody","tr","th","td","hr","br"\x7d`. -/
def allowed_tags : List String :=
  BLEACH_ALLOWED_TAGS.union
    ["p", "img", "h1", "h2", "h3", "h4", "pre", "code", "table", "thead",
     "tbody", "tr", "th", "td", "hr", "br"]

/-- app.py line 25: the attribute allow-list, a map from tag name to the
attribute names kept on that tag (tags absent from the map keep none). -/
def allowed_attrs : String → List String
  | "a" => ["href", "title", "rel", "target"]
  | "img" => ["src", "alt", "title"]
  | "code" => ["class"]
  | _ => []

/-- One token of `bleach.clean`: an allowed tag is kept with only its
allowed attributes; a disallowed tag is escaped into literal text
(bleach's default `strip=False` behaviour); text passes through. -/
def cleanToken (tags : List String) (attrs : String → List String) :
    Token → Token
  | .text s => .text s
  | .tagOpen n as =>
    if n ∈ tags then .tagOpen n (as.filter (fun a => a.1 ∈ attrs n))
    else .text ("&lt;" ++ n ++ "&gt;")
  | .tagClose n =>
    if n ∈ tags then .tagClose n
    else .text ("&lt;/" ++ n ++ "&gt;")

/-- `bleach.clean(html, tags=..., attributes=...)` over the token model. -/
def bleach_clean (tags : List String) (attrs : String → List String)
    (h : Html) : Html :=
  h.map (cleanToken tags attrs)

/-- app.py `render_markdown`, lines 22-26: Markdown conversion (the
`markdown` library, passed in as a function) followed by sanitization
with the fixed tag/attribute allow-lists. -/
def render_markdown (markdown : String → Html) (md_text : String) : Html :=
  bleach_clean allowed_tags allowed_attrs (markdown md_text)

/-- A row of the `home_eval_leads` table (app.py lines 42-52). -/
structure Lead where
  id : Nat
  full_name : String
  email : String
  phone : String
  address : String
  property_type : String
  timeframe : String
  notes : String
  created_at : String
deriving DecidableEq, Repr

/-- A row of the `posts` table (app.py lines 56-67). `published` is the
SQLite INTEGER flag (1 = published, 0 = not). -/
structure Post where
  id : Nat
  title : String
  slug : String
  summary : String
  content_md : String
  content_html : Html
  cover_url : String
  published : Nat
  created_at : String
  updated_at : String
deriving DecidableEq, Repr

/-- The SQLite database: both tables plus the AUTOINCREMENT counters. -/
structure DB where
  home_eval_leads : List Lead
  posts : List Post
  nextLeadId : Nat
  nextPostId : Nat
deriving DecidableEq, Repr

/-- Process configuration: the admin password from the environment, and
the two third-party pure functions whose implementations live outside
the repository (`slugify.slugify`, `markdown.markdown`). -/
structure Config where
  ADMIN_PASSWORD : String
  slugify : String → String
  markdown : String → Html

/-- app.py `check_admin`, lines 19-20. -/
def check_admin (cfg : Config) (pw : String) : Bool :=
  pw == cfg.ADMIN_PASSWORD

/-- The raw POST body of the home-evaluation form (each field as
`request.form.get(name, "")`). -/
structure LeadForm where
  full_name : String
  email : String
  phone : String
  address : String
  property_type : String
  timeframe : String
  notes : String
deriving DecidableEq, Repr

/-- The `data` dict of app.py lines 74-82: every field stripped. -/
def trimLeadForm (f : LeadForm) : LeadForm where
  full_name := pyStrip f.full_name
  email := pyStrip f.email
  phone := pyStrip f.phone
  address := pyStrip f.address
  property_type := pyStrip f.property_type
  timeframe := pyStrip f.timeframe
  notes := pyStrip f.notes

/-- Response of the POST branch of `/home-evaluation`. -/
inductive LeadResponse where
  | renderForm (form : LeadForm) (flashMsg : Option String)
  | redirectSchedule (name : String) (email : String)
deriving DecidableEq, Repr

/-- app.py `home_evaluation`, POST branch, lines 73-99. `utcNow` is the
value of `datetime.utcnow().isoformat()` at the request. -/
def home_evaluation_post (db : DB) (form : LeadForm) (utcNow : String) :
    DB × LeadResponse :=
  let data := trimLeadForm form
  if data.full_name = "" ∨ data.email = "" ∨ data.address = "" then
    (db, .renderForm data (some "Name, email, and property address are required."))
  else
    let lead : Lead :=
      { id := db.nextLeadId
        full_name := data.full_name
        email := data.email
        phone := data.phone
        address := data.address
        property_type := data.property_type
        timeframe := data.timeframe
        notes := data.notes
        created_at := utcNow }
    ({ db with
        home_eval_leads := db.home_eval_leads ++ [lead]
        nextLeadId := db.nextLeadId + 1 },
     .redirectSchedule data.full_name data.email)

/-- Insertion of a post into a list ordered by `created_at` descending
(ties keep earlier elements first), modelling SQL
`ORDER BY datetime(created_at) DESC` — ISO-8601 timestamps compare the
same as their `datetime()` values. -/
def insertDesc (p : Post) : List Post → List Post
  | [] => [p]
  | q :: qs =>
    if q.created_at ≤ p.created_at then p :: q :: qs
    else q :: insertDesc p qs

/-- Insertion sort by `created_at` descending. -/
def sortByCreatedAtDesc : List Post → List Post
  | [] => []
  | p :: ps => insertDesc p (sortByCreatedAtDesc ps)

/-- app.py `blog_index`, lines 129-139: the rows of the listing query
`SELECT ... FROM posts WHERE published = 1 ORDER BY datetime(created_at)
DESC` (the SQL projects a subset of columns; we keep whole rows since
the claims are about which posts appear). -/
def blog_index_posts (db : DB) : List Post :=
  sortByCreatedAtDesc (db.posts.filter (fun p => p.published == 1))

/-- Outcome of `GET /blog/<slug>`. `noResponse` is the path on which the
Python function falls off the end and returns `None` (Flask then raises
a server error: no rendered response is produced). -/
inductive BlogPostResponse where
  | notFound404
  | rendered (content_html : Html)
  | noResponse
deriving DecidableEq, Repr

/-- Whether `(content_html or "").strip()` is falsy, i.e. the stored
HTML serializes to whitespace only: no tags, and all text runs strip to
empty. -/
def htmlBlank (h : Html) : Bool :=
  h.all fun t =>
    match t with
    | .text s => pyStrip s == ""
    | _ => false

/-- app.py `blog_post`, lines 141-160. The query keeps the first row
with the requested slug among published posts (`LIMIT 1`); on a miss it
aborts with 404. The `return` statement sits inside the `if` that
recomputes HTML from Markdown, so when the stored HTML is non-blank (or
the Markdown is empty) the function returns `None`. -/
def blog_post (cfg : Config) (db : DB) (slug : String) : BlogPostResponse :=
  match db.posts.find? (fun p => p.slug == slug && p.published == 1) with
  | none => .notFound404
  | some post =>
    if htmlBlank post.content_html && post.content_md != "" then
      .rendered (render_markdown cfg.markdown post.content_md)
    else
      .noResponse

/-- The raw POST body of the admin post editor (each field as
`request.form.get(name, "")`; `published` is the checkbox value, `"on"`
when checked). -/
structure PostForm where
  password : String
  title : String
  summary : String
  content_md : String
  cover_url : String
  published : String
deriving DecidableEq, Repr

/-- Outcome of the admin create/edit POST handlers. `serverError` is an
uncaught `sqlite3.IntegrityError` from the `slug` UNIQUE constraint,
which surfaces as an unhandled server error; the failed statement
leaves the database unchanged. -/
inductive AdminResponse where
  | renderEditForm (form : PostForm) (flashMsg : Option String)
  | redirectBlogPost (slug : String)
  | notFound404
  | serverError
deriving DecidableEq, Repr

/-- The row inserted by the INSERT statement of app.py lines 190-193:
every stored field comes from the stripped form fields, with
`slug = slugify(title)` and `content_html = render_markdown(content_md)`
recomputed at write time, and both timestamps set to the request time. -/
def newPostRow (cfg : Config) (db : DB) (form : PostForm)
    (utcNow : String) : Post where
  id := db.nextPostId
  title := pyStrip form.title
  slug := cfg.slugify (pyStrip form.title)
  summary := pyStrip form.summary
  content_md := pyStrip form.content_md
  content_html := render_markdown cfg.markdown (pyStrip form.content_md)
  cover_url := pyStrip form.cover_url
  published := if form.published == "on" then 1 else 0
  created_at := utcNow
  updated_at := utcNow

/-- app.py `admin_blog_new`, POST branch, lines 171-194. -/
def admin_blog_new_post (cfg : Config) (db : DB) (form : PostForm)
    (utcNow : String) : DB × AdminResponse :=
  if ¬ check_admin cfg form.password then
    (db, .renderEditForm form (some "Invalid admin password."))
  else if pyStrip form.title = "" ∨ pyStrip form.content_md = "" then
    (db, .renderEditForm form (some "Title and content are required."))
  else if db.posts.any (fun p => p.slug == cfg.slugify (pyStrip form.title)) then
    (db, .serverError)
  else
    ({ db with
        posts := db.posts ++ [newPostRow cfg db form utcNow]
        nextPostId := db.nextPostId + 1 },
     .redirectBlogPost (cfg.slugify (pyStrip form.title)))

/-- The row update performed by the UPDATE statement of app.py lines
221-224 on the row with the matching id: the eight SET fields take the
stripped/recomputed form values, everything else (id, created_at) is
carried over. -/
def updateRow (cfg : Config) (form : PostForm) (utcNow : String)
    (q : Post) : Post :=
  { q with
      title := pyStrip form.title
      slug := cfg.slugify (pyStrip form.title)
      summary := pyStrip form.summary
      content_md := pyStrip form.content_md
      content_html := render_markdown cfg.markdown (pyStrip form.content_md)
      cover_url := pyStrip form.cover_url
      published := if form.published == "on" then 1 else 0
      updated_at := utcNow }

/-- app.py `admin_blog_edit`, POST branch, lines 198-225. The handler
first fetches the row by id (404 when absent), then checks the
password; note there is no title/content validation before the UPDATE.
The UPDATE raises `IntegrityError` when the recomputed slug collides
with a different row. -/
def admin_blog_edit_post (cfg : Config) (db : DB) (post_id : Nat)
    (form : PostForm) (utcNow : String) : DB × AdminResponse :=
  match db.posts.find? (fun p => p.id == post_id) with
  | none => (db, .notFound404)
  | some _row =>
    if ¬ check_admin cfg form.password then
      (db, .renderEditForm form (some "Invalid admin password."))
    else if db.posts.any
        (fun q => q.slug == cfg.slugify (pyStrip form.title) && q.id != post_id) then
      (db, .serverError)
    else
      ({ db with
          posts := db.posts.map fun q =>
            if q.id = post_id then updateRow cfg form utcNow q else q },
       .redirectBlogPost (cfg.slugify (pyStrip form.title)))

/-- Whether an HTML token stream contains a script element tag (an
escaped script tag is a `text` token and does not count, matching what
a browser would execute). -/
def hasScriptTag (h : Html) : Bool :=
  h.any fun t =>
    match t with
    | .tagOpen n _ => n == "script"
    | .tagClose n => n == "script"
    | .text _ => false

/-- Whether an admin response is the redisplayed edit form carrying a
flashed error message. -/
def isEditFormError : AdminResponse → Bool
  | .renderEditForm _ (some _) => true
  | _ => false

/-! ## Concrete instances used in witnesses and counterexamples -/

/-- Identity stand-in for the third-party `slugify`. -/
def idSlugify : String → String := fun s => s

/-- Toy `markdown` emitting its input as one text run. -/
def textMarkdown : String → Html := fun s => [Token.text s]

/-- Toy `markdown` whose output smuggles a script element, exercising
the sanitizer. -/
def scriptMarkdown : String → Html := fun s =>
  [Token.tagOpen "script" [("src", "evil.js")], Token.text s,
   Token.tagClose "script", Token.tagOpen "p" []]

def cfg0 : Config :=
  { ADMIN_PASSWORD := "hunter2", slugify := idSlugify, markdown := textMarkdown }

def cfgScript : Config :=
  { ADMIN_PASSWORD := "hunter2", slugify := idSlugify, markdown := scriptMarkdown }

def emptyDB : DB :=
  { home_eval_leads := [], posts := [], nextLeadId := 1, nextPostId := 1 }

/-- A published post whose stored HTML is non-blank. -/
def post1 : Post where
  id := 1
  title := "Old"
  slug := "old"
  summary := "s"
  content_md := "body"
  content_html := [Token.tagOpen "p" [], Token.text "body", Token.tagClose "p"]
  cover_url := ""
  published := 1
  created_at := "2026-01-01T00:00:00"
  updated_at := "2026-01-01T00:00:00"

def db1 : DB :=
  { home_eval_leads := [], posts := [post1], nextLeadId := 1, nextPostId := 2 }

/-- An unpublished (draft) post. -/
def draftPost : Post where
  id := 2
  title := "Draft"
  slug := "draft"
  summary := ""
  content_md := "d"
  content_html := [Token.text "d"]
  cover_url := ""
  published := 0
  created_at := "2026-01-02T00:00:00"
  updated_at := "2026-01-02T00:00:00"

def db2 : DB :=
  { home_eval_leads := [], posts := [post1, draftPost], nextLeadId := 1,
    nextPostId := 3 }

def leadFormBlankName : LeadForm :=
  { full_name := "  ", email := "jo@example.com", phone := "",
    address := "1 Main St", property_type := "", timeframe := "", notes := "" }

def leadFormFull : LeadForm :=
  { full_name := " Jo Doe ", email := " jo@example.com ", phone := "555",
    address := " 1 Main St ", property_type := "condo", timeframe := "soon",
    notes := "" }

def formValid : PostForm :=
  { password := "hunter2", title := " New Post ", summary := "sum",
    content_md := "hello world", cover_url := "", published := "on" }

def formBlankTitle : PostForm :=
  { password := "hunter2", title := "   ", summary := "", content_md := "  ",
    cover_url := "", published := "" }

def formWrongPw : PostForm :=
  { password := "wrong", title := "T", summary := "", content_md := "c",
    cover_url := "", published := "" }

/-! ## Helper lemmas -/

theorem mem_insertDesc {p q : Post} {l : List Post} :
    p ∈ insertDesc q l ↔ p = q ∨ p ∈ l := by
  induction l with
  | nil => simp [insertDesc]
  | cons r rs ih =>
    simp only [insertDesc]
    split
    · simp [List.mem_cons]
    · simp only [List.mem_cons, ih]
      tauto

theorem mem_sortByCreatedAtDesc {p : Post} {l : List Post} :
    p ∈ sortByCreatedAtDesc l ↔ p ∈ l := by
  induction l with
  | nil => simp [sortByCreatedAtDesc]
  | cons r rs ih => simp [sortByCreatedAtDesc, mem_insertDesc, ih]

/-- The sanitizer never lets a tag outside the allow-list through. -/
theorem hasScriptTag_bleach_clean (tags : List String)
    (attrs : String → List String) (h : Html)
    (hscript : "script" ∉ tags) :
    hasScriptTag (bleach_clean tags attrs h) = false := by
  simp only [hasScriptTag, bleach_clean, List.any_map, List.any_eq_false,
    Function.comp]
  intro t _
  cases t with
  | text s => simp [cleanToken]
  | tagOpen n as =>
    by_cases hmem : n ∈ tags
    · have hne : n ≠ "script" := fun he => hscript (he ▸ hmem)
      simp [cleanToken, hmem, hne]
    · simp [cleanToken, hmem]
  | tagClose n =>
    by_cases hmem : n ∈ tags
    · have hne : n ≠ "script" := fun he => hscript (he ▸ hmem)
      simp [cleanToken, hmem, hne]
    · simp [cleanToken, hmem]

/-- `render_markdown` output never contains a script tag, whatever the
Markdown converter produced. -/
theorem hasScriptTag_render_markdown (markdown : String → Html)
    (md_text : String) :
    hasScriptTag (render_markdown markdown md_text) = false :=
  hasScriptTag_bleach_clean allowed_tags allowed_attrs (markdown md_text)
    (by decide)

/-- A create POST with a wrong password is rejected before any write. -/
theorem admin_blog_new_post_wrong_pw {cfg : Config} {db : DB}
    {form : PostForm} {utcNow : String}
    (hpw : check_admin cfg form.password = false) :
    admin_blog_new_post cfg db form utcNow =
      (db, .renderEditForm form (some "Invalid admin password.")) := by
  simp [admin_blog_new_post, hpw]

/-- An edit POST with a wrong password on an existing post is rejected
before any write. -/
theorem admin_blog_edit_post_wrong_pw {cfg : Config} {db : DB}
    {post_id : Nat} {form : PostForm} {utcNow : String} {row : Post}
    (hfind : db.posts.find? (fun p => p.id == post_id) = some row)
    (hpw : check_admin cfg form.password = false) :
    admin_blog_edit_post cfg db post_id form utcNow =
      (db, .renderEditForm form (some "Invalid admin password.")) := by
  simp [admin_blog_edit_post, hfind, hpw]

/-- Characterization of a successful create: the redirect response is
produced exactly on the branch that passed the password check, the
title/content validation and the slug-uniqueness constraint, and the
new table is the old one with the single new row appended. -/
theorem admin_blog_new_post_success {cfg : Config} {db db' : DB}
    {form : PostForm} {utcNow s : String}
    (h : admin_blog_new_post cfg db form utcNow = (db', .redirectBlogPost s)) :
    check_admin cfg form.password = true ∧
    pyStrip form.title ≠ "" ∧ pyStrip form.content_md ≠ "" ∧
    db.posts.any (fun p => p.slug == cfg.slugify (pyStrip form.title)) = false ∧
    s = cfg.slugify (pyStrip form.title) ∧
    db' = { db with
              posts := db.posts ++ [newPostRow cfg db form utcNow]
              nextPostId := db.nextPostId + 1 } := by
  by_cases h1 : check_admin cfg form.password = true
  · by_cases h2 : pyStrip form.title = "" ∨ pyStrip form.content_md = ""
    · simp [admin_blog_new_post, h1, h2] at h
    · by_cases h3 :
        db.posts.any (fun p => p.slug == cfg.slugify (pyStrip form.title)) = true
      · simp [admin_blog_new_post, h1, h2, h3] at h
      · simp only [admin_blog_new_post, h1, h2, not_true_eq_false,
          Bool.not_eq_true] at h h3
        simp [h3] at h
        push_neg at h2
        exact ⟨h1, h2.1, h2.2, h3, h.2.symm, h.1.symm⟩
  · simp [admin_blog_new_post, h1] at h

/-- Characterization of a successful edit: the redirect response is
produced exactly when the row exists, the password check passed and the
recomputed slug collides with no other row; the new table is the old
one with the single matching row rewritten. -/
theorem admin_blog_edit_post_success {cfg : Config} {db db' : DB}
    {post_id : Nat} {form : PostForm} {utcNow s : String}
    (h : admin_blog_edit_post cfg db post_id form utcNow =
      (db', .redirectBlogPost s)) :
    check_admin cfg form.password = true ∧
    (db.posts.find? (fun p => p.id == post_id)).isSome = true ∧
    db.posts.any
      (fun q => q.slug == cfg.slugify (pyStrip form.title) && q.id != post_id)
      = false ∧
    s = cfg.slugify (pyStrip form.title) ∧
    db' = { db with
              posts := db.posts.map fun q =>
                if q.id = post_id then updateRow cfg form utcNow q else q } := by
  cases hfind : db.posts.find? (fun p => p.id == post_id) with
  | none => simp [admin_blog_edit_post, hfind] at h
  | some row =>
    by_cases h1 : check_admin cfg form.password = true
    · by_cases h3 : db.posts.any
        (fun q => q.slug == cfg.slugify (pyStrip form.title) && q.id != post_id)
        = true
      · simp [admin_blog_edit_post, hfind, h1, h3] at h
      · simp only [admin_blog_edit_post, hfind, h1, not_true_eq_false,
          Bool.not_eq_true] at h h3
        simp [h3] at h
        exact ⟨h1, by simp [hfind], h3, h.2.symm, h.1.symm⟩
    · simp [admin_blog_edit_post, hfind, h1] at h

/-- The database produced by a first successful create from the empty
database. -/
def dbAfterCreate : DB :=
  { home_eval_leads := []
    posts := [newPostRow cfg0 emptyDB formValid "2026-10-12T04:00:00"]
    nextLeadId := 1
    nextPostId := 2 }

/-- The database produced by a successful edit of `post1` in `db1`. -/
def dbAfterEdit : DB :=
  { db1 with posts := [updateRow cfg0 formValid "2026-10-12T05:00:00" post1] }

/-- Any row present after a create POST was already present or is the
freshly inserted `newPostRow`. -/
theorem admin_blog_new_post_posts_mem {cfg : Config} {db : DB}
    {form : PostForm} {utcNow : String} {p : Post}
    (hp : p ∈ (admin_blog_new_post cfg db form utcNow).1.posts) :
    p ∈ db.posts ∨ p = newPostRow cfg db form utcNow := by
  by_cases h1 : check_admin cfg form.password = true
  · by_cases h2 : pyStrip form.title = "" ∨ pyStrip form.content_md = ""
    · simp [admin_blog_new_post, h1, h2] at hp
      exact Or.inl hp
    · by_cases h3 :
        db.posts.any (fun r => r.slug == cfg.slugify (pyStrip form.title)) = true
      · simp [admin_blog_new_post, h1, h2, h3] at hp
        exact Or.inl hp
      · simp only [Bool.not_eq_true] at h3
        simp [admin_blog_new_post, h1, h2, h3, List.mem_append] at hp
        exact hp
  · simp [admin_blog_new_post, h1] at hp
    exact Or.inl hp

/-- Any row present after an edit POST was already present or is the
rewrite (through `updateRow`) of a previously present row. -/
theorem admin_blog_edit_post_posts_mem {cfg : Config} {db : DB}
    {post_id : Nat} {form : PostForm} {utcNow : String} {q : Post}
    (hq : q ∈ (admin_blog_edit_post cfg db post_id form utcNow).1.posts) :
    q ∈ db.posts ∨
    ∃ r, r ∈ db.posts ∧ q = updateRow cfg form utcNow r := by
  cases hfind : db.posts.find? (fun p => p.id == post_id) with
  | none =>
    simp [admin_blog_edit_post, hfind] at hq
    exact Or.inl hq
  | some row =>
    by_cases h1 : check_admin cfg form.password = true
    · by_cases h3 : db.posts.any
        (fun r => r.slug == cfg.slugify (pyStrip form.title) && r.id != post_id)
        = true
      · simp [admin_blog_edit_post, hfind, h1, h3] at hq
        exact Or.inl hq
      · simp only [Bool.not_eq_true] at h3
        simp [admin_blog_edit_post, hfind, h1, h3, List.mem_map] at hq
        obtain ⟨r, hr, hrq⟩ := hq
        by_cases hid : r.id = post_id
        · rw [if_pos hid] at hrq
          exact Or.inr ⟨r, hr, hrq.symm⟩
        · rw [if_neg hid] at hrq
          exact Or.inl (hrq ▸ hr)
    · simp [admin_blog_edit_post, hfind, h1] at hq
      exact Or.inl hq

/-! ## Claims -/

/-- C1: in the GET /blog/slug handler, for every published post found by
slug, a rendered response is returned exactly when the stored
content_html is blank after stripping and content_md is non-empty (the
fallback branch, which re-renders the Markdown); when content_html is
already populated the handler takes no response path at all
(`noResponse`, the Python function returning None). -/
theorem c1_detail_only_fallback_responds (cfg : Config) (db : DB)
    (slug : String) (post : Post)
    (hfind : db.posts.find? (fun p => p.slug == slug && p.published == 1) =
      some post) :
    (blog_post cfg db slug =
        .rendered (render_markdown cfg.markdown post.content_md) ↔
      htmlBlank post.content_html = true ∧ post.content_md ≠ "") ∧
    (htmlBlank post.content_html = false →
      blog_post cfg db slug = .noResponse) := by
  simp only [blog_post, hfind]
  by_cases hb : htmlBlank post.content_html = true
  · by_cases hm : post.content_md = ""
    · simp [hb, hm]
    · simp [hb, hm]
  · simp only [Bool.not_eq_true] at hb
    simp [hb]

/-- Witness for C1 at a concrete database: the published post `post1`
has populated content_html, and the handler produces no response. -/
theorem c1_witness :
    (blog_post cfg0 db1 "old" =
        .rendered (render_markdown cfg0.markdown post1.content_md) ↔
      htmlBlank post1.content_html = true ∧ post1.content_md ≠ "") ∧
    (htmlBlank post1.content_html = false →
      blog_post cfg0 db1 "old" = .noResponse) :=
  c1_detail_only_fallback_responds cfg0 db1 "old" post1 (by decide)

/-- C4: a POST to /home-evaluation in which any of full_name, email or
address is blank after trimming creates no lead row (the database is
returned unchanged) and redisplays the form with the error message and
the trimmed submitted values. -/
theorem c4_lead_validation_failure (db : DB) (form : LeadForm)
    (utcNow : String)
    (h : pyStrip form.full_name = "" ∨ pyStrip form.email = "" ∨
      pyStrip form.address = "") :
    home_evaluation_post db form utcNow =
      (db, .renderForm (trimLeadForm form)
        (some "Name, email, and property address are required.")) := by
  have h' : (trimLeadForm form).full_name = "" ∨
      (trimLeadForm form).email = "" ∨ (trimLeadForm form).address = "" := by
    simpa [trimLeadForm] using h
  simp [home_evaluation_post, h']

/-- Witness for C4: blank name, no row created, form redisplayed. -/
theorem c4_witness :
    home_evaluation_post emptyDB leadFormBlankName "2026-10-12T00:00:00" =
      (emptyDB, .renderForm (trimLeadForm leadFormBlankName)
        (some "Name, email, and property address are required.")) :=
  c4_lead_validation_failure emptyDB leadFormBlankName "2026-10-12T00:00:00"
    (Or.inl (by decide))

/-- C5: a POST to /home-evaluation with non-blank full_name, email and
address appends exactly one lead row, whose created_at is the request's
UTC timestamp, and redirects to /schedule with the trimmed name and
email as query parameters. -/
theorem c5_lead_success (db : DB) (form : LeadForm) (utcNow : String)
    (h1 : pyStrip form.full_name ≠ "") (h2 : pyStrip form.email ≠ "")
    (h3 : pyStrip form.address ≠ "") :
    home_evaluation_post db form utcNow =
      ({ db with
          home_eval_leads := db.home_eval_leads ++
            [{ id := db.nextLeadId
               full_name := pyStrip form.full_name
               email := pyStrip form.email
               phone := pyStrip form.phone
               address := pyStrip form.address
               property_type := pyStrip form.property_type
               timeframe := pyStrip form.timeframe
               notes := pyStrip form.notes
               created_at := utcNow }]
          nextLeadId := db.nextLeadId + 1 },
       .redirectSchedule (pyStrip form.full_name) (pyStrip form.email)) := by
  simp [home_evaluation_post, trimLeadForm, h1, h2, h3]

/-- Witness for C5 at a concrete form with padded fields. -/
theorem c5_witness :
    home_evaluation_post emptyDB leadFormFull "2026-10-12T01:00:00" =
      ({ emptyDB with
          home_eval_leads := emptyDB.home_eval_leads ++
            [{ id := emptyDB.nextLeadId
               full_name := pyStrip leadFormFull.full_name
               email := pyStrip leadFormFull.email
               phone := pyStrip leadFormFull.phone
               address := pyStrip leadFormFull.address
               property_type := pyStrip leadFormFull.property_type
               timeframe := pyStrip leadFormFull.timeframe
               notes := pyStrip leadFormFull.notes
               created_at := "2026-10-12T01:00:00" }]
          nextLeadId := emptyDB.nextLeadId + 1 },
       .redirectSchedule (pyStrip leadFormFull.full_name)
         (pyStrip leadFormFull.email)) :=
  c5_lead_success emptyDB leadFormFull "2026-10-12T01:00:00"
    (by decide) (by decide) (by decide)

/-- C6: a post with published = 0 is absent from the /blog listing, and
(given the slug UNIQUE constraint, i.e. no second row shares its slug)
GET /blog/slug for its slug is a 404. -/
theorem c6_unpublished_hidden (cfg : Config) (db : DB) (p : Post)
    (hmem : p ∈ db.posts) (hpub : p.published = 0)
    (huniq : ∀ q ∈ db.posts, q.slug = p.slug → q = p) :
    p ∉ blog_index_posts db ∧ blog_post cfg db p.slug = .notFound404 := by
  constructor
  · simp only [blog_index_posts, mem_sortByCreatedAtDesc, List.mem_filter]
    rintro ⟨-, hp1⟩
    rw [hpub] at hp1
    simp at hp1
  · have hnone :
        db.posts.find? (fun q => q.slug == p.slug && q.published == 1) =
          none := by
      apply List.find?_eq_none.mpr
      intro q hq
      simp only [Bool.and_eq_true, beq_iff_eq, not_and]
      intro hslug hpubq
      have hqp : q = p := huniq q hq hslug
      rw [hqp, hpub] at hpubq
      exact absurd hpubq (by decide)
    simp [blog_post, hnone]

/-- Witness for C6: the draft post of `db2` is not listed and its slug
404s. -/
theorem c6_witness :
    draftPost ∉ blog_index_posts db2 ∧
    blog_post cfg0 db2 draftPost.slug = .notFound404 :=
  c6_unpublished_hidden cfg0 db2 draftPost (by decide) (by decide)
    (by decide)

/-- C2 counterexample: on admin edit, a correct-password submission
whose title and content are blank after trimming is not recovered
locally — the row is updated (the database changes) and the handler
redirects instead of redisplaying the form. -/
theorem c2_counterexample :
    (admin_blog_edit_post cfg0 db1 1 formBlankTitle "2026-10-12T02:00:00").1
      ≠ db1 ∧
    (admin_blog_edit_post cfg0 db1 1 formBlankTitle "2026-10-12T02:00:00").2
      = AdminResponse.redirectBlogPost "" := by
  decide

/-- C2 amended: admin create recovers locally from a missing title or
content (form redisplayed with the message, database unchanged); admin
edit performs no such validation — with a correct password on an
existing post it proceeds to the UPDATE, ending in either the slug
uniqueness server error or a redirect. -/
theorem c2_amended_create_validates_edit_does_not (cfg : Config) (db : DB)
    (form : PostForm) (utcNow : String) (post_id : Nat) (row : Post)
    (hpw : check_admin cfg form.password = true)
    (hblank : pyStrip form.title = "" ∨ pyStrip form.content_md = "")
    (hrow : db.posts.find? (fun p => p.id == post_id) = some row) :
    admin_blog_new_post cfg db form utcNow =
      (db, .renderEditForm form (some "Title and content are required.")) ∧
    ((admin_blog_edit_post cfg db post_id form utcNow).2 =
        AdminResponse.serverError ∨
      (admin_blog_edit_post cfg db post_id form utcNow).2 =
        AdminResponse.redirectBlogPost (cfg.slugify (pyStrip form.title))) := by
  constructor
  · simp [admin_blog_new_post, hpw, hblank]
  · by_cases h3 : db.posts.any
      (fun q => q.slug == cfg.slugify (pyStrip form.title) && q.id != post_id)
      = true
    · simp [admin_blog_edit_post, hrow, hpw, h3]
    · simp only [Bool.not_eq_true] at h3
      simp [admin_blog_edit_post, hrow, hpw, h3]

/-- Witness for the amended C2 at a concrete database and blank form. -/
theorem c2_amended_witness :
    admin_blog_new_post cfg0 db1 formBlankTitle "2026-10-12T02:00:00" =
      (db1, .renderEditForm formBlankTitle
        (some "Title and content are required.")) ∧
    ((admin_blog_edit_post cfg0 db1 1 formBlankTitle "2026-10-12T02:00:00").2 =
        AdminResponse.serverError ∨
      (admin_blog_edit_post cfg0 db1 1 formBlankTitle "2026-10-12T02:00:00").2 =
        AdminResponse.redirectBlogPost
          (cfg0.slugify (pyStrip formBlankTitle.title))) :=
  c2_amended_create_validates_edit_does_not cfg0 db1 formBlankTitle
    "2026-10-12T02:00:00" 1 post1 (by decide) (Or.inl (by decide)) (by decide)

/-- C3 counterexample: a wrong-password POST to the edit route of a
nonexistent post id returns the 404 page, not the edit form with an
error message (the database is still unchanged). -/
theorem c3_counterexample :
    isEditFormError
      (admin_blog_edit_post cfg0 emptyDB 1 formWrongPw
        "2026-10-12T03:00:00").2 = false ∧
    (admin_blog_edit_post cfg0 emptyDB 1 formWrongPw "2026-10-12T03:00:00").2
      = AdminResponse.notFound404 ∧
    (admin_blog_edit_post cfg0 emptyDB 1 formWrongPw "2026-10-12T03:00:00").1
      = emptyDB := by
  decide

/-- C3 amended: every wrong-password POST makes no database change; the
create handler, and the edit handler when the post id exists, redisplay
the edit form with the password error, while the edit handler on a
nonexistent id returns 404 before reaching the password check. -/
theorem c3_amended_wrong_password (cfg : Config) (db : DB) (form : PostForm)
    (utcNow : String) (post_id : Nat)
    (hpw : check_admin cfg form.password = false) :
    admin_blog_new_post cfg db form utcNow =
      (db, .renderEditForm form (some "Invalid admin password.")) ∧
    (admin_blog_edit_post cfg db post_id form utcNow).1 = db ∧
    ((db.posts.find? (fun p => p.id == post_id)).isSome = true →
      (admin_blog_edit_post cfg db post_id form utcNow).2 =
        AdminResponse.renderEditForm form (some "Invalid admin password.")) ∧
    (db.posts.find? (fun p => p.id == post_id) = none →
      (admin_blog_edit_post cfg db post_id form utcNow).2 =
        AdminResponse.notFound404) := by
  refine ⟨admin_blog_new_post_wrong_pw hpw, ?_, ?_, ?_⟩
  · cases hfind : db.posts.find? (fun p => p.id == post_id) with
    | none => simp [admin_blog_edit_post, hfind]
    | some row => rw [admin_blog_edit_post_wrong_pw hfind hpw]
  · intro hsome
    cases hfind : db.posts.find? (fun p => p.id == post_id) with
    | none => rw [hfind] at hsome; simp at hsome
    | some row => rw [admin_blog_edit_post_wrong_pw hfind hpw]
  · intro hnone
    simp [admin_blog_edit_post, hnone]

/-- Witness for the amended C3 at a concrete database. -/
theorem c3_amended_witness :
    admin_blog_new_post cfg0 db1 formWrongPw "2026-10-12T03:00:00" =
      (db1, .renderEditForm formWrongPw (some "Invalid admin password.")) ∧
    (admin_blog_edit_post cfg0 db1 1 formWrongPw "2026-10-12T03:00:00").1 =
      db1 ∧
    ((db1.posts.find? (fun p => p.id == 1)).isSome = true →
      (admin_blog_edit_post cfg0 db1 1 formWrongPw "2026-10-12T03:00:00").2 =
        AdminResponse.renderEditForm formWrongPw
          (some "Invalid admin password.")) ∧
    (db1.posts.find? (fun p => p.id == 1) = none →
      (admin_blog_edit_post cfg0 db1 1 formWrongPw "2026-10-12T03:00:00").2 =
        AdminResponse.notFound404) :=
  c3_amended_wrong_password cfg0 db1 formWrongPw "2026-10-12T03:00:00" 1
    (by decide)

/-- C7: whatever HTML the Markdown converter produces — in particular
for an input containing a script tag — `render_markdown` output
contains no script tag; consequently every row present after an admin
create or edit either predates the request or carries script-free
content_html. -/
theorem c7_sanitized_html_never_has_script (markdown : String → Html)
    (md_text : String) (cfg : Config) (dbn dbe : DB)
    (formn forme : PostForm) (post_id : Nat) (un ue : String) (p q : Post)
    (hp : p ∈ (admin_blog_new_post cfg dbn formn un).1.posts)
    (hq : q ∈ (admin_blog_edit_post cfg dbe post_id forme ue).1.posts) :
    hasScriptTag (render_markdown markdown md_text) = false ∧
    (p ∈ dbn.posts ∨ hasScriptTag p.content_html = false) ∧
    (q ∈ dbe.posts ∨ hasScriptTag q.content_html = false) := by
  refine ⟨hasScriptTag_render_markdown markdown md_text, ?_, ?_⟩
  · rcases admin_blog_new_post_posts_mem hp with h | h
    · exact Or.inl h
    · refine Or.inr ?_
      rw [h]
      exact hasScriptTag_render_markdown cfg.markdown (pyStrip formn.content_md)
  · rcases admin_blog_edit_post_posts_mem hq with h | ⟨r, hr, hqr⟩
    · exact Or.inl h
    · refine Or.inr ?_
      rw [hqr]
      exact hasScriptTag_render_markdown cfg.markdown (pyStrip forme.content_md)

/-- Witness for C7 with a Markdown converter that emits a script
element: the sanitizer strips it from both saved rows. -/
theorem c7_witness :
    hasScriptTag (render_markdown scriptMarkdown "x") = false ∧
    (newPostRow cfgScript emptyDB formValid "2026-10-12T06:00:00" ∈
        emptyDB.posts ∨
      hasScriptTag
        (newPostRow cfgScript emptyDB formValid
          "2026-10-12T06:00:00").content_html = false) ∧
    (updateRow cfgScript formValid "2026-10-12T06:00:00" post1 ∈ db1.posts ∨
      hasScriptTag
        (updateRow cfgScript formValid
          "2026-10-12T06:00:00" post1).content_html = false) :=
  c7_sanitized_html_never_has_script scriptMarkdown "x" cfgScript emptyDB db1
    formValid formValid 1 "2026-10-12T06:00:00" "2026-10-12T06:00:00"
    (newPostRow cfgScript emptyDB formValid "2026-10-12T06:00:00")
    (updateRow cfgScript formValid "2026-10-12T06:00:00" post1)
    (by decide) (by decide)

/-- C8: after a successful create, creating a second post with the same
trimmed title (correct password, non-blank content) hits the slug
UNIQUE constraint: the second INSERT raises (server error) and the
database is unchanged — it fails uniqueness rather than silently
overwriting, and exactly that one behavior occurs. -/
theorem c8_duplicate_title_fails_unique (cfg : Config) (db db1' : DB)
    (form1 form2 : PostForm) (u1 u2 s : String)
    (h1 : admin_blog_new_post cfg db form1 u1 = (db1', .redirectBlogPost s))
    (hpw : check_admin cfg form2.password = true)
    (htitle : pyStrip form2.title = pyStrip form1.title)
    (hmd : pyStrip form2.content_md ≠ "") :
    admin_blog_new_post cfg db1' form2 u2 = (db1', .serverError) := by
  obtain ⟨hp1, ht1, hc1, hany, hs, hdb⟩ := admin_blog_new_post_success h1
  have htitle2 : pyStrip form2.title ≠ "" := by rw [htitle]; exact ht1
  have hany2 : db1'.posts.any
      (fun p => p.slug == cfg.slugify (pyStrip form2.title)) = true := by
    rw [hdb]
    simp [List.any_append, newPostRow, htitle]
  simp [admin_blog_new_post, hpw, htitle2, hmd, hany2]

/-- Witness for C8: two creates with the same title from the empty
database; the second one errors and writes nothing. -/
theorem c8_witness :
    admin_blog_new_post cfg0 dbAfterCreate formValid "2026-10-12T04:30:00" =
      (dbAfterCreate, .serverError) :=
  c8_duplicate_title_fails_unique cfg0 emptyDB dbAfterCreate formValid
    formValid "2026-10-12T04:00:00" "2026-10-12T04:30:00" "New Post"
    (by decide) (by decide) (by decide) (by decide)

/-- C9: on every successful save the stored row is the recomputed one:
create appends exactly `newPostRow` — whose slug is slugify of the
trimmed submitted title and whose content_html is render_markdown of
the trimmed submitted Markdown — and edit rewrites the matching row
through `updateRow`, which recomputes the same two fields; both
handlers redirect to the recomputed slug. These are the only two paths
that write content_html. -/
theorem c9_saved_rows_recomputed (cfg : Config) (dbn dbn' dbe dbe' : DB)
    (formn forme : PostForm) (un ue sn se : String) (post_id : Nat)
    (r : Post)
    (hn : admin_blog_new_post cfg dbn formn un = (dbn', .redirectBlogPost sn))
    (he : admin_blog_edit_post cfg dbe post_id forme ue =
      (dbe', .redirectBlogPost se)) :
    sn = cfg.slugify (pyStrip formn.title) ∧
    dbn'.posts = dbn.posts ++ [newPostRow cfg dbn formn un] ∧
    (newPostRow cfg dbn formn un).slug = cfg.slugify (pyStrip formn.title) ∧
    (newPostRow cfg dbn formn un).content_html =
      render_markdown cfg.markdown (pyStrip formn.content_md) ∧
    se = cfg.slugify (pyStrip forme.title) ∧
    dbe'.posts = dbe.posts.map (fun q =>
      if q.id = post_id then updateRow cfg forme ue q else q) ∧
    (updateRow cfg forme ue r).slug = cfg.slugify (pyStrip forme.title) ∧
    (updateRow cfg forme ue r).content_html =
      render_markdown cfg.markdown (pyStrip forme.content_md) := by
  obtain ⟨-, -, -, -, hsn, hdbn⟩ := admin_blog_new_post_success hn
  obtain ⟨-, -, -, hse, hdbe⟩ := admin_blog_edit_post_success he
  exact ⟨hsn, by rw [hdbn], rfl, rfl, hse, by rw [hdbe], rfl, rfl⟩

/-- Witness for C9: a concrete successful create and a concrete
successful edit. -/
theorem c9_witness :
    "New Post" = cfg0.slugify (pyStrip formValid.title) ∧
    dbAfterCreate.posts = emptyDB.posts ++
      [newPostRow cfg0 emptyDB formValid "2026-10-12T04:00:00"] ∧
    (newPostRow cfg0 emptyDB formValid "2026-10-12T04:00:00").slug =
      cfg0.slugify (pyStrip formValid.title) ∧
    (newPostRow cfg0 emptyDB formValid "2026-10-12T04:00:00").content_html =
      render_markdown cfg0.markdown (pyStrip formValid.content_md) ∧
    "New Post" = cfg0.slugify (pyStrip formValid.title) ∧
    dbAfterEdit.posts = db1.posts.map (fun q =>
      if q.id = 1 then updateRow cfg0 formValid "2026-10-12T05:00:00" q
      else q) ∧
    (updateRow cfg0 formValid "2026-10-12T05:00:00" post1).slug =
      cfg0.slugify (pyStrip formValid.title) ∧
    (updateRow cfg0 formValid "2026-10-12T05:00:00" post1).content_html =
      render_markdown cfg0.markdown (pyStrip formValid.content_md) :=
  c9_saved_rows_recomputed cfg0 emptyDB dbAfterCreate db1 dbAfterEdit
    formValid formValid "2026-10-12T04:00:00" "2026-10-12T05:00:00"
    "New Post" "New Post" 1 post1 (by decide) (by decide)

/-- C10: frame property of a successful edit: the leads table and both
autoincrement counters are untouched; the posts table is rewritten
pointwise so that every row with a different id is exactly unchanged,
and the rewritten row keeps its id and created_at — only the eight SET
fields and updated_at change. -/
theorem c10_edit_frame (cfg : Config) (db db' : DB) (post_id : Nat)
    (form : PostForm) (utcNow s : String) (q : Post)
    (h : admin_blog_edit_post cfg db post_id form utcNow =
      (db', .redirectBlogPost s)) :
    db'.home_eval_leads = db.home_eval_leads ∧
    db'.nextLeadId = db.nextLeadId ∧
    db'.nextPostId = db.nextPostId ∧
    db'.posts = db.posts.map (fun r =>
      if r.id = post_id then updateRow cfg form utcNow r else r) ∧
    (q.id ≠ post_id →
      (if q.id = post_id then updateRow cfg form utcNow q else q) = q) ∧
    (updateRow cfg form utcNow q).id = q.id ∧
    (updateRow cfg form utcNow q).created_at = q.created_at := by
  obtain ⟨-, -, -, -, hdb⟩ := admin_blog_edit_post_success h
  subst hdb
  refine ⟨rfl, rfl, rfl, rfl, ?_, rfl, rfl⟩
  intro hne
  rw [if_neg hne]

/-- Witness for C10: the concrete edit of `post1` leaves the draft row
untouched and preserves id and created_at of the edited row. -/
theorem c10_witness :
    dbAfterEdit.home_eval_leads = db1.home_eval_leads ∧
    dbAfterEdit.nextLeadId = db1.nextLeadId ∧
    dbAfterEdit.nextPostId = db1.nextPostId ∧
    dbAfterEdit.posts = db1.posts.map (fun r =>
      if r.id = 1 then updateRow cfg0 formValid "2026-10-12T05:00:00" r
      else r) ∧
    (draftPost.id ≠ 1 →
      (if draftPost.id = 1 then
        updateRow cfg0 formValid "2026-10-12T05:00:00" draftPost
      else draftPost) = draftPost) ∧
    (updateRow cfg0 formValid "2026-10-12T05:00:00" draftPost).id =
      draftPost.id ∧
    (updateRow cfg0 formValid "2026-10-12T05:00:00" draftPost).created_at =
      draftPost.created_at :=
  c10_edit_frame cfg0 db1 dbAfterEdit 1 formValid "2026-10-12T05:00:00"
    "New Post" draftPost (by decide)

end RealEstateSite
